import Mathlib

/-!
Verification of the express-redis signal relay
(src/express-redis-server/server.js).

The server accepts `POST /signal` with a JSON body, serializes the parsed
body with `JSON.stringify`, publishes the resulting string to the Redis
channel `trading-signals`, and answers HTTP 200 on success or HTTP 500 when
the publish call throws.  Startup first connects the Redis client and only
then binds the HTTP listener to port 3000.

The embedding below models the handler as a pure function from the parsed
request body and the broker state to the list of observable events the
handler performs (log lines, the publish attempt, broker acceptance, the
HTTP response), in the order the code performs them.
-/

/-- JSON values as produced by the JSON body parser: null, booleans,
numbers, strings, arrays and objects (objects keep their key order, as
JavaScript objects do). Numbers are modelled as integers; none of the
verified properties depends on numeric formatting. -/
inductive Json where
  | null : Json
  | bool (b : Bool) : Json
  | num (n : Int) : Json
  | str (s : String) : Json
  | arr (items : List Json) : Json
  | obj (fields : List (String × Json)) : Json

/-- Hexadecimal digit character for a value below 16, lowercase as
`JSON.stringify` emits for control-character escapes. -/
def hexDigit (n : Nat) : Char :=
  if n < 10 then Char.ofNat (48 + n) else Char.ofNat (87 + n)

/-- Escaping of one character inside a JSON string literal, following
`JSON.stringify`: quote and backslash are escaped, the common control
characters get their two-character escapes, the remaining control
characters get a `\u00XX` escape, and everything else passes through. -/
def escapeChar (c : Char) : String :=
  if c = '"' then "\\\""
  else if c = '\\' then "\\\\"
  else if c = Char.ofNat 8 then "\\b"
  else if c = Char.ofNat 9 then "\\t"
  else if c = Char.ofNat 10 then "\\n"
  else if c = Char.ofNat 12 then "\\f"
  else if c = Char.ofNat 13 then "\\r"
  else if c.toNat < 32 then
    "\\u00" ++ String.singleton (hexDigit (c.toNat / 16)) ++
      String.singleton (hexDigit (c.toNat % 16))
  else String.singleton c

/-- JSON string literal for `s`: surrounding quotes with every character
escaped as `JSON.stringify` does. -/
def quoteString (s : String) : String :=
  "\"" ++ String.join (s.data.map escapeChar) ++ "\""

mutual

/-- Serialization of a JSON value, modelling `JSON.stringify` as used at
src/express-redis-server/server.js:17. -/
def stringify : Json → String
  | Json.null => "null"
  | Json.bool true => "true"
  | Json.bool false => "false"
  | Json.num n => toString n
  | Json.str s => quoteString s
  | Json.arr items => "[" ++ stringifyItems items ++ "]"
  | Json.obj fields => "\x7b" ++ stringifyFields fields ++ "\x7d"

/-- Comma-separated serialization of array elements. -/
def stringifyItems : List Json → String
  | [] => ""
  | [x] => stringify x
  | x :: y :: rest => stringify x ++ "," ++ stringifyItems (y :: rest)

/-- Comma-separated serialization of object fields as `"key":value`. -/
def stringifyFields : List (String × Json) → String
  | [] => ""
  | [(k, v)] => quoteString k ++ ":" ++ stringify v
  | (k, v) :: f :: rest =>
      quoteString k ++ ":" ++ stringify v ++ "," ++ stringifyFields (f :: rest)

end

/-- HTTP response produced by `res.status(s).send(body)`. -/
structure Response where
  status : Nat
  body : String
deriving DecidableEq

/-- Observable events a request's handling can perform, in program order:
the `console.log` of the received signal (line 14), the call to
`client.publish` (line 17), the broker accepting the publish (the resolved
await, after which subscribers receive the message), the `console.error`
in the catch block (line 21), and the HTTP response (lines 19 and 22).
`processExit` never occurs in any trace of this program; it is part of the
event alphabet so that its absence is a statable property. -/
inductive Event where
  | logReceived (signal : Json) : Event
  | publishCall (channel : String) (message : String) : Event
  | brokerAccept (channel : String) (message : String) : Event
  | logPublishError (err : String) : Event
  | logClientError (err : String) : Event
  | respond (status : Nat) (body : String) : Event
  | processExit : Event

/-- State of the broker connection at the time of a request: `up` means the
awaited `client.publish` resolves; `down err` means it rejects with error
`err` (e.g. the connection is down). -/
inductive BrokerState where
  | up : BrokerState
  | down (err : String) : BrokerState

/-- Channel every publish goes to (string literal at line 17). -/
def signalChannel : String := "trading-signals"

/-- Port the server listens on (literal at line 28). -/
def serverPort : Nat := 3000

/-- Route table of the app: the single route registered at line 11. -/
def appRoutes : List (String × String) := [("POST", "/signal")]

/-- Body of the 200 response (line 19). -/
def successBody : String := "Signal received and published"

/-- Body of the 500 response (line 22). -/
def failureBody : String := "Error publishing signal"

/-- The try block of the handler (lines 12-19): logs the received signal,
calls `client.publish('trading-signals', JSON.stringify(signal))` and
awaits it; on resolution it sends the 200 response. Returns the events
performed together with the error thrown, if any (the rejected await). -/
def tryBlock (signal : Json) (broker : BrokerState) :
    List Event × Option String :=
  match broker with
  | BrokerState.up =>
      ([Event.logReceived signal,
        Event.publishCall signalChannel (stringify signal),
        Event.brokerAccept signalChannel (stringify signal),
        Event.respond 200 successBody], none)
  | BrokerState.down err =>
      ([Event.logReceived signal,
        Event.publishCall signalChannel (stringify signal)], some err)

/-- The whole `app.post('/signal')` handler (lines 11-24): runs the try
block; if it threw, the catch block (lines 20-23) logs the error and sends
the 500 response. The result is the full event trace of the request. -/
def handleSignal (signal : Json) (broker : BrokerState) : List Event :=
  match tryBlock signal broker with
  | (events, none) => events
  | (events, some err) =>
      events ++ [Event.logPublishError err, Event.respond 500 failureBody]

/-- Outcome of the JSON body-parsing middleware for a request, as seen by
the route handler: `ok j` when the body parsed to the JSON value `j`,
`malformed` when the body could not be parsed as JSON, and `absent` when no
JSON body was presented, in which case the parser leaves the parsed body as
the empty object. -/
inductive ParseOutcome where
  | ok (body : Json) : ParseOutcome
  | malformed : ParseOutcome
  | absent : ParseOutcome

/-- Modelled from the spec: the `express.json()` middleware installed at
line 5 is library code not contained in this repository. Per the spec, a
malformed (non-JSON) request body surfaces as HTTP 500 to the caller before
the route handler runs, so no publish occurs; the error-page body of that
response is not fixed by the spec and is modelled as empty. An absent body
leaves `req.body` as the empty object and the handler runs normally. -/
def serveSignal (parsed : ParseOutcome) (broker : BrokerState) : List Event :=
  match parsed with
  | ParseOutcome.ok body => handleSignal body broker
  | ParseOutcome.malformed => [Event.respond 500 ""]
  | ParseOutcome.absent => handleSignal (Json.obj []) broker

/-- Registered connection-level error handler,
`client.on('error', (err) => console.log('Redis Client Error', err))`
(line 9): invoked asynchronously on a connection error, it only writes a
log line. -/
def onClientError (err : String) : List Event :=
  [Event.logClientError err]

/-- Result of `client.connect()` at startup (line 27): it either resolves
or rejects with an error. -/
inductive ConnectResult where
  | ok : ConnectResult
  | err : ConnectResult
deriving DecidableEq

/-- Startup events: the call to `client.connect()`, its resolution or
rejection, and `app.listen(port)`. -/
inductive StartupEvent where
  | connectCall : StartupEvent
  | connected : StartupEvent
  | connectFailed : StartupEvent
  | listen (port : Nat) : StartupEvent
deriving DecidableEq

/-- The `startServer` function (lines 26-31): `await client.connect()`
then `app.listen(3000)`. When the connect rejects, the rejection escapes
`startServer` (nothing catches it), so `app.listen` is never reached and
the process fails with an unhandled rejection. -/
def startServer : ConnectResult → List StartupEvent
  | ConnectResult.ok =>
      [StartupEvent.connectCall, StartupEvent.connected,
       StartupEvent.listen serverPort]
  | ConnectResult.err =>
      [StartupEvent.connectCall, StartupEvent.connectFailed]

/-- Responses contained in an event trace, in order. -/
def responsesOf (events : List Event) : List Response :=
  events.filterMap fun e =>
    match e with
    | Event.respond s b => some ⟨s, b⟩
    | _ => none

/-- Publish calls (channel, message) contained in an event trace. -/
def publishesOf (events : List Event) : List (String × String) :=
  events.filterMap fun e =>
    match e with
    | Event.publishCall c m => some (c, m)
    | _ => none

/-- Messages (channel, message) the broker accepted, i.e. the ones
delivered to the channel's subscribers. -/
def acceptedOf (events : List Event) : List (String × String) :=
  events.filterMap fun e =>
    match e with
    | Event.brokerAccept c m => some (c, m)
    | _ => none

/-- Recognizer for publish-call events. -/
def isPublishCall : Event → Bool
  | Event.publishCall _ _ => true
  | _ => false

/-- Recognizer for broker-accept events. -/
def isBrokerAccept : Event → Bool
  | Event.brokerAccept _ _ => true
  | _ => false

/-- Recognizer for response events. -/
def isRespond : Event → Bool
  | Event.respond _ _ => true
  | _ => false

/-- Recognizer for the catch block's error log. -/
def isLogPublishError : Event → Bool
  | Event.logPublishError _ => true
  | _ => false

/-- Recognizer for process termination. -/
def isProcessExit : Event → Bool
  | Event.processExit => true
  | _ => false

/-- Recognizer for the listen startup event. -/
def isListen : StartupEvent → Bool
  | StartupEvent.listen _ => true
  | _ => false

/-- C1: for every valid JSON payload, a POST /signal request whose body
parsed to that payload, with the broker up so the publish succeeds, yields
exactly one response, HTTP 200 with body "Signal received and published",
and exactly one publish call, to channel trading-signals, whose message is
the JSON serialization of the payload. -/
theorem signal_success (j : Json) :
    responsesOf (serveSignal (ParseOutcome.ok j) BrokerState.up) =
      [⟨200, "Signal received and published"⟩] ∧
    publishesOf (serveSignal (ParseOutcome.ok j) BrokerState.up) =
      [("trading-signals", stringify j)] :=
  ⟨rfl, rfl⟩

/-- C2: a POST /signal request whose body is malformed (not parseable as
JSON) gets a response with HTTP status 500, and no publish call and no
delivery to the broker occurs, whatever the broker state. -/
theorem malformed_no_publish (b : BrokerState) :
    (responsesOf (serveSignal ParseOutcome.malformed b)).map Response.status
      = [500] ∧
    publishesOf (serveSignal ParseOutcome.malformed b) = [] ∧
    acceptedOf (serveSignal ParseOutcome.malformed b) = [] := by
  cases b <;> exact ⟨rfl, rfl, rfl⟩

/-- C3: startup is sequential: when the broker connection succeeds, the
connect call resolves (index 1) strictly before the listener is bound
(index 2), and when the initial connection fails no listen event occurs at
all, the startup trace ending in the failure. -/
theorem startup_sequential :
    (startServer ConnectResult.ok).findIdx?
        (fun e => e = StartupEvent.connected) = some 1 ∧
    (startServer ConnectResult.ok).findIdx? isListen = some 2 ∧
    (startServer ConnectResult.ok).countP isListen = 1 ∧
    (startServer ConnectResult.err).any isListen = false ∧
    (startServer ConnectResult.err).getLast?
      = some StartupEvent.connectFailed := by
  exact ⟨by decide, rfl, rfl, rfl, rfl⟩

/-- C4: for every request reaching the handler, the message of every
publish call is exactly the JSON serialization of the payload received:
the handler publishes the serialized body and nothing else, applying no
transformation, filtering or enrichment. -/
theorem publish_verbatim (j : Json) (b : BrokerState) :
    (publishesOf (handleSignal j b)).map Prod.snd = [stringify j] := by
  cases b <;> rfl

/-- C5: when the publish call rejects with some error, the response is
HTTP 500 with body "Error publishing signal", the underlying error is
logged by the catch block, the broker accepts no message (so none is
delivered to any subscriber), and exactly one publish call is made, i.e.
the publish is not retried. -/
theorem publish_failure (j : Json) (e : String) :
    responsesOf (handleSignal j (BrokerState.down e)) =
      [⟨500, "Error publishing signal"⟩] ∧
    Event.logPublishError e ∈ handleSignal j (BrokerState.down e) ∧
    acceptedOf (handleSignal j (BrokerState.down e)) = [] ∧
    (handleSignal j (BrokerState.down e)).countP isPublishCall = 1 := by
  refine ⟨rfl, ?_, rfl, rfl⟩
  simp [handleSignal, tryBlock]

/-- C6: in every handler trace the steps occur in order: first the parsed
body is received and logged (index 0), then the publish call is made
(index 1), and the unique response comes last (index 3), after the publish
call completed; in particular when the broker is up the response follows
the broker's acceptance of the publish (index 2). -/
theorem handler_order (j : Json) (b : BrokerState) :
    (handleSignal j b).head? = some (Event.logReceived j) ∧
    (handleSignal j b).findIdx? isPublishCall = some 1 ∧
    (handleSignal j b).findIdx? isRespond = some 3 ∧
    (handleSignal j b).countP isRespond = 1 ∧
    (handleSignal j b).length = 4 ∧
    (handleSignal j BrokerState.up).findIdx? isBrokerAccept = some 2 := by
  cases b <;> exact ⟨rfl, rfl, rfl, rfl, rfl, rfl⟩

/-- C7: the asynchronously registered connection-error handler only writes
a log line: it produces no response and does not terminate the process;
request handling is unaffected by it, a request whose publish resolves
still getting its 200, and only a rejected publish call makes the one
affected request fail with 500. -/
theorem client_error_isolated (e : String) (j : Json) :
    onClientError e = [Event.logClientError e] ∧
    responsesOf (onClientError e) = [] ∧
    (onClientError e).any isProcessExit = false ∧
    (handleSignal j BrokerState.up).any isProcessExit = false ∧
    (handleSignal j (BrokerState.down e)).any isProcessExit = false ∧
    (responsesOf (handleSignal j BrokerState.up)).map Response.status
      = [200] ∧
    (responsesOf (handleSignal j (BrokerState.down e))).map Response.status
      = [500] :=
  ⟨rfl, rfl, rfl, rfl, rfl, rfl, rfl⟩

/-- C8: the external interface constants are fixed literals: the listening
port is 3000, the route table is exactly the single route POST /signal,
the channel name is trading-signals, every publish call of every request
goes to that channel, and successful startup binds the listener to that
port. -/
theorem fixed_interface (j : Json) (b : BrokerState) :
    serverPort = 3000 ∧
    appRoutes = [("POST", "/signal")] ∧
    signalChannel = "trading-signals" ∧
    (publishesOf (handleSignal j b)).map Prod.fst = [signalChannel] ∧
    StartupEvent.listen serverPort ∈ startServer ConnectResult.ok := by
  cases b <;> exact ⟨rfl, rfl, rfl, rfl, by decide⟩

/-- C9: the handler is total: every request reaching it produces exactly
one response, which is either 200 "Signal received and published" or
500 "Error publishing signal"; and every error the try block throws is
caught and converted into the 500 response, so no exception escapes the
handler. -/
theorem handler_total (j : Json) (b : BrokerState) :
    (∃ r : Response,
      responsesOf (handleSignal j b) = [r] ∧
      (r = ⟨200, "Signal received and published"⟩ ∨
       r = ⟨500, "Error publishing signal"⟩)) ∧
    ((tryBlock j b).2.isNone ∨
      responsesOf (handleSignal j b) = [⟨500, "Error publishing signal"⟩]) := by
  cases b with
  | up =>
      exact ⟨⟨⟨200, "Signal received and published"⟩, rfl, Or.inl rfl⟩,
        Or.inl rfl⟩
  | down e =>
      exact ⟨⟨⟨500, "Error publishing signal"⟩, rfl, Or.inr rfl⟩,
        Or.inr rfl⟩

/-- C10: a request whose body is absent or not presented as JSON, so that
the parser leaves the parsed body as the empty object, is not rejected:
the serialization of the empty object is the two-character string of an
opening and a closing brace, that string is published to trading-signals,
and the response is HTTP 200. -/
theorem empty_body_published :
    stringify (Json.obj []) = "\x7b\x7d" ∧
    publishesOf (serveSignal ParseOutcome.absent BrokerState.up) =
      [("trading-signals", "\x7b\x7d")] ∧
    responsesOf (serveSignal ParseOutcome.absent BrokerState.up) =
      [⟨200, "Signal received and published"⟩] :=
  ⟨rfl, rfl, rfl⟩

